import Mathlib

/-!
Verification of the form-recognition and fill-execution engine of the
website-commiter browser extension.  The definitions below are a shallow
embedding of the JavaScript source: the content script
(`src/unnamed/part_000`), the background AI-response parser
(`src/unnamed/part_004`), and the library matcher
(`src/lib/formRecognizer.js`).  JavaScript numbers are modelled as `ℚ`
(with `Option ℚ` where `NaN` can arise), strings as `String`, and the
DOM / storage side effects as explicit state passing over oracle
environments.
-/

namespace WebsiteCommitter

/-! ## JavaScript string primitives -/

/-- JS `String.prototype.includes`: substring containment. -/
def jsIncludes (s sub : String) : Bool :=
  decide (sub.toList <:+: s.toList)

/-- JS `toLowerCase` (character-wise; the engine only lowercases ASCII
letters, which is all the catalog's Latin keywords need — CJK characters
are fixed points in both semantics). -/
def jsToLower (s : String) : String :=
  String.mk (s.data.map Char.toLower)

/-- Whitespace removed by JS `trim`. -/
def isJsSpace (c : Char) : Bool :=
  c = ' ' || c = '\t' || c = '\n' || c = '\r'

/-- JS `String.prototype.trim`. -/
def jsTrim (s : String) : String :=
  String.mk (((s.data.dropWhile isJsSpace).reverse.dropWhile isJsSpace).reverse)

/-- JS `String.prototype.startsWith`. -/
def jsStartsWith (s pre : String) : Bool :=
  pre.data.isPrefixOf s.data

/-- Drop the first `n` characters (for stripping a recognized ASCII
protocol prefix). -/
def jsDrop (s : String) (n : Nat) : String :=
  String.mk (s.data.drop n)

/-- Characters matched by the JS separator class `[\s_-]` (common ASCII
whitespace plus underscore and hyphen). -/
def isSepChar (c : Char) : Bool :=
  c = ' ' || c = '\t' || c = '\n' || c = '\r' || c = '_' || c = '-'

/-- Helper for `jsSplitSep`: split a character list on runs of
separators, mirroring JS `str.split(/[\s_-]+/)` (leading/trailing
separators produce empty chunks, separator runs collapse).  Structural
recursion on a fuel argument (initialized to the list length, which each
step strictly consumes) keeps the definition kernel-reducible. -/
def splitSepRunsAux (p : Char → Bool) : Nat → List Char → List Char → List (List Char)
  | _, [], acc => [acc.reverse]
  | 0, _ :: _, acc => [acc.reverse]
  | fuel + 1, c :: cs, acc =>
    if p c then acc.reverse :: splitSepRunsAux p fuel (cs.dropWhile p) []
    else splitSepRunsAux p fuel cs (c :: acc)

/-- JS `str.split(/[\s_-]+/)`. -/
def jsSplitSep (s : String) : List String :=
  (splitSepRunsAux isSepChar s.toList.length s.toList []).map (fun l => String.mk l)

/-- JS string truthiness on an optional string (`undefined`, `null` and
`''` are falsy). -/
def jsStrTruthy : Option String → Bool
  | none => false
  | some s => s ≠ ""

/-- JS `a || b` on optional strings. -/
def jsOrStr (a : Option String) (b : Option String) : Option String :=
  if jsStrTruthy a then a else b

/-- JS `w || d` for an optionally-present numeric property (`undefined`
and `0` are falsy). -/
def jsOrQ (w : Option ℚ) (d : ℚ) : ℚ :=
  match w with
  | none => d
  | some x => if x = 0 then d else x

/-! ## NaN-aware arithmetic

Accessing a missing numeric property in JS yields `undefined`, and
`undefined * 2` is `NaN`, which then absorbs through `+=` and makes every
comparison false.  `Option ℚ` with `none = NaN` models exactly that. -/

/-- Addition where `none` (NaN) absorbs. -/
def nanAdd (a b : Option ℚ) : Option ℚ :=
  match a, b with
  | some x, some y => some (x + y)
  | _, _ => none

/-- JS `score > 0` (false for NaN). -/
def nanGtZero : Option ℚ → Bool
  | some x => decide (0 < x)
  | none => false

/-! ## Data model (part_000) -/

/-- Locator union as built by `getFieldLocator` and consumed by
`findElementByLocator` in `src/unnamed/part_000`. -/
inductive Locator where
  | byId (value : String)
  | byName (value : String) (formIndex : Nat)
  | byData (value : String)
  | byIndex (parentTag : String) (parentIndex : Nat) (fieldIndex : Nat)
  | byXPath (value : String)
deriving Repr, DecidableEq

/-- Closed enumeration of standard submission fields. -/
inductive StandardField where
  | siteName | email | siteUrl | category | tags | tagline
  | shortDescription | longDescription | logo | screenshot
deriving Repr, DecidableEq

/-- The JS property-name spelling of a standard field (used as object key
and in user-facing error strings). -/
def StandardField.jsName : StandardField → String
  | .siteName => "siteName"
  | .email => "email"
  | .siteUrl => "siteUrl"
  | .category => "category"
  | .tags => "tags"
  | .tagline => "tagline"
  | .shortDescription => "shortDescription"
  | .longDescription => "longDescription"
  | .logo => "logo"
  | .screenshot => "screenshot"

/-- One `{value, text}` entry of a choice control. -/
structure OptionItem where
  value : String
  text : String
deriving Repr, DecidableEq

/-- Field descriptor as pushed by `getFormMetadata` in part_000. -/
structure Field where
  locator : Locator
  xpath : String := ""
  locatorDesc : String := ""
  type : String := ""
  name : String := ""
  id : String := ""
  placeholder : String := ""
  label : String := ""
  ariaLabel : String := ""
  required : Bool := false
  options : List OptionItem := []
  isTextarea : Bool := false
deriving Repr, DecidableEq

/-- Result of `getFormMetadata`. -/
structure FormMetadata where
  hasForm : Bool
  fields : List Field
deriving Repr, DecidableEq

/-- FieldMapping as pushed by `recognizeByKeywords` / `parseAIResponse`. -/
structure FieldMapping where
  locator : Locator
  standardField : StandardField
  confidence : ℚ
  method : String
  xpath : String := ""
  locatorDesc : String := ""
deriving Repr, DecidableEq

/-! ## Keyword matcher of the content script (part_000 `recognizeByKeywords`) -/

/-- Per-attribute weights of a `FIELD_KEYWORDS` entry; absent members are
`none` (JS `undefined`). -/
structure KwWeights where
  wtype : Option ℚ := none
  wname : Option ℚ := none
  wlabel : Option ℚ := none
  wplaceholder : Option ℚ := none
  wtitle : Option ℚ := none
deriving Repr

/-- One `FIELD_KEYWORDS` entry. -/
structure KwConfig where
  keywords : List String
  ctype : Option String := none
  isSelect : Bool := false
  isTextarea : Bool := false
  isFileInput : Bool := false
  weights : KwWeights
deriving Repr

/-- The `FIELD_KEYWORDS` catalog of part_000, in source (JS object
insertion) order. -/
def FIELD_KEYWORDS : List (StandardField × KwConfig) :=
  [ (.siteName,
     { keywords := ["site", "name", "title", "website", "webname", "sitename", "网站名", "站点名", "网站名称"]
       weights := { wname := some 3, wtitle := some 2, wplaceholder := some 1, wlabel := some 2 } }),
    (.email,
     { keywords := ["email", "mail", "contact", "邮箱", "联系邮箱", "联系邮件"]
       ctype := some "email"
       weights := { wtype := some 3, wname := some 2, wplaceholder := some 1 } }),
    (.siteUrl,
     { keywords := ["website url", "web url", "site url", "url", "website", "link", "href", "site", "网址", "网站地址", "链接", "siteurl", "websiteurl", "homepage", "home page"]
       ctype := some "url"
       weights := { wtype := some 2, wname := some 2, wplaceholder := some 1, wlabel := some 2 } }),
    (.category,
     { keywords := ["category", "categories", "cat", "type", "class", "分类", "类别", "类型"]
       isSelect := true
       weights := { wname := some 2, wlabel := some 2 } }),
    (.tags,
     { keywords := ["tag", "tags", "标签"]
       isSelect := true
       weights := { wname := some 2, wlabel := some 2 } }),
    (.tagline,
     { keywords := ["tagline", "slogan", "motto", "tag", "标语", "口号"]
       weights := { wname := some 2, wplaceholder := some 1 } }),
    (.shortDescription,
     { keywords := ["short", "desc", "description", "summary", "intro", "brief", "introduction", "简介", "简述", "描述", "shortdesc"]
       weights := { wname := some 2, wplaceholder := some 1, wlabel := some 2 } }),
    (.longDescription,
     { keywords := ["long", "detail", "description", "content", "about", "info", "introduction", "详细", "介绍", "描述", "详情"]
       isTextarea := true
       weights := { wname := some 2, wplaceholder := some 1, wlabel := some 2 } }),
    (.logo,
     { keywords := ["logo", "icon", "image", "favicon", "图标", "标志"]
       ctype := some "url"
       isFileInput := true
       weights := { wname := some 2, wplaceholder := some 1, wlabel := some 2 } }),
    (.screenshot,
     { keywords := ["screenshot", "shot", "capture", "screen", "preview", "image", "截图", "预览图", "app image", "appimage", "app-image", "界面截图", "应用截图", "product image", "productimage", "product-image"]
       ctype := some "url"
       isFileInput := true
       weights := { wname := some 2, wplaceholder := some 1, wlabel := some 2 } }) ]

/-- Score accumulated for one field against one `FIELD_KEYWORDS` entry
(the body of the inner `for` loop of `recognizeByKeywords`).  `none`
models the NaN that arises when a config declares `type` but no
`weights.type` (logo / screenshot on a `type="url"` field). -/
def scoreFor (field : Field) (sf : StandardField) (config : KwConfig) : Option ℚ :=
  let nameLower := jsToLower field.name
  let labelLower := jsToLower field.label
  let placeholderLower := jsToLower field.placeholder
  let ariaLabelLower := jsToLower field.ariaLabel
  let idLower := jsToLower field.id
  let score : Option ℚ := some 0
  let score := match config.ctype with
    | some t => if field.type = t then nanAdd score (config.weights.wtype.map (· * 2)) else score
    | none => score
  let score := if config.isTextarea && field.isTextarea then nanAdd score (some 3) else score
  let score := if config.isSelect && (field.type = "select-one" || field.type = "custom-select")
    then nanAdd score (some 3) else score
  let score := if config.isFileInput && field.type = "file" then nanAdd score (some 4) else score
  let score := if field.type = "contenteditable" && sf = StandardField.shortDescription
    then nanAdd score (some 5) else score
  let score := config.keywords.foldl (fun sc kw =>
    let k := jsToLower kw
    let sc := if jsIncludes nameLower k then nanAdd sc (some (jsOrQ config.weights.wname 1)) else sc
    let sc := if jsIncludes labelLower k then nanAdd sc (some (jsOrQ config.weights.wlabel 1)) else sc
    let sc := if jsIncludes placeholderLower k then nanAdd sc (some (jsOrQ config.weights.wplaceholder 1)) else sc
    let sc := if jsIncludes ariaLabelLower k then nanAdd sc (some (jsOrQ config.weights.wlabel 1 * (12/10))) else sc
    let sc := if jsIncludes idLower k then nanAdd sc (some (jsOrQ config.weights.wname 1)) else sc
    sc) score
  let score := if sf = StandardField.siteUrl then
      let hint := jsTrim (placeholderLower ++ " " ++ labelLower ++ " " ++ ariaLabelLower)
      if jsStartsWith hint "http://" || jsStartsWith hint "https://" || jsIncludes hint "://"
      then nanAdd score (some 4) else score
    else score
  let score := if jsIncludes labelLower "introduction" then
      if field.isTextarea then
        (if sf = StandardField.longDescription then nanAdd score (some 6) else score)
      else
        (if sf = StandardField.shortDescription then nanAdd score (some 5) else score)
    else score
  score

/-- The `if (bestScore >= 2) matches.push({...})` tail of the per-field
loop of `recognizeByKeywords`. -/
def pushKeywordMatch (field : Field) (best : Option StandardField × ℚ) : Option FieldMapping :=
  match best.1 with
  | some bf =>
    if 2 ≤ best.2 then
      some { locator := field.locator, standardField := bf,
             confidence := min (best.2 / 8) 1, method := "keyword",
             xpath := field.xpath, locatorDesc := field.locatorDesc }
    else none
  | none => none

/-- The per-field body of `recognizeByKeywords`: build the `scores`
object (an insertion-ordered association list), apply the three logo
exclusion deletes, then pick the strictly-best entry and emit a mapping
when the best score reaches the floor `2`.
The JS regex test on the label, `/^image\s*[\(\s]?/`, is equivalent to
`labelLower.startsWith "image"` because both quantifiers may match the
empty string. -/
def matchOneKeyword (field : Field) : Option FieldMapping :=
  let scores0 : List (StandardField × ℚ) :=
    FIELD_KEYWORDS.filterMap (fun p =>
      match scoreFor field p.1 p.2 with
      | some s => if 0 < s then some (p.1, s) else none
      | none => none)
  let labelLower := jsToLower field.label
  let nameLower := jsToLower field.name
  let ariaLabelLower := jsToLower field.ariaLabel
  let idLower := jsToLower field.id
  let hintForExclude := jsTrim (labelLower ++ " " ++ nameLower ++ " " ++ ariaLabelLower)
  let scores1 := if jsIncludes hintForExclude "app image" || jsIncludes hintForExclude "appimage" ||
      jsIncludes hintForExclude "product image" || jsIncludes hintForExclude "productimage"
    then scores0.filter (fun p => p.1 ≠ StandardField.logo) else scores0
  let scores2 := if (jsStartsWith labelLower "image" || jsTrim labelLower = "image") &&
      !(jsIncludes hintForExclude "logo") && !(jsIncludes hintForExclude "icon")
    then scores1.filter (fun p => p.1 ≠ StandardField.logo) else scores1
  let scores3 := if (jsIncludes idLower "image" || jsIncludes nameLower "image") &&
      !(jsIncludes idLower "logo") && !(jsIncludes nameLower "logo")
    then scores2.filter (fun p => p.1 ≠ StandardField.logo) else scores2
  let best := scores3.foldl
    (fun (acc : Option StandardField × ℚ) p => if acc.2 < p.2 then (some p.1, p.2) else acc)
    (none, 0)
  pushKeywordMatch field best

/-- `recognizeByKeywords` of part_000: one optional mapping per field. -/
def recognizeByKeywords (formMetadata : FormMetadata) : List FieldMapping :=
  formMetadata.fields.filterMap matchOneKeyword

/-! ## Mapping cache (part_000 `getCachedMapping` / `cacheMapping` / `clearMapping`)

`chrome.storage.local` holds one object under the key `fieldMappings`,
mapping page keys (`hostname + pathname`) to either a legacy bare array
or a `{mappings, cachedAt}` envelope.  We model that object as a
function from page keys to an optional stored value. -/

/-- A stored cache entry: legacy bare array or envelope. -/
inductive CacheVal where
  | legacy (arr : List FieldMapping)
  | envelope (mappings : List FieldMapping) (cachedAt : String)
deriving Repr, DecidableEq

/-- The `fieldMappings` object of `chrome.storage.local`. -/
def CacheStore : Type := String → Option CacheVal

/-- `getCachedMapping(domain)`: `undefined` reads as a miss; a bare array
is returned as-is; an envelope yields its `mappings` member. -/
def getCachedMapping (store : CacheStore) (domain : String) : Option (List FieldMapping) :=
  match store domain with
  | none => none
  | some (.legacy arr) => some arr
  | some (.envelope m _) => some m

/-- `cacheMapping(domain, mappings)`: always writes the
`{mappings, cachedAt}` envelope under the page key. -/
def cacheMapping (store : CacheStore) (domain : String) (mappings : List FieldMapping)
    (cachedAt : String) : CacheStore :=
  fun k => if k = domain then some (.envelope mappings cachedAt) else store k

/-- `clearMapping()`: deletes the entry under the current page key. -/
def clearMapping (store : CacheStore) (cacheKey : String) : CacheStore :=
  fun k => if k = cacheKey then none else store k

/-! ## `recognizeForm` (part_000)

The DOM extraction (`getFormMetadata`), page-key computation
(`getCacheKey`) and background AI round trip (`callAIRecognize`) are
environment inputs; the AI call either rejects (timeout, HTTP error,
`lastError`, missing response) or resolves with a mapping list (the
background's `parseAIResponse` yields `[]` for an empty or unparsable
response). -/

/-- Mutable per-page state (`pageState`). -/
structure PageState where
  hasForm : Bool := false
  formMetadata : Option FormMetadata := none
  fieldMappings : Option (List FieldMapping) := none
  domain : Option String := none
  recognitionStatus : String := "idle"
  recognitionMethod : Option String := none

/-- Environment of one `recognizeForm` run. -/
structure RecEnv where
  formMetadata : FormMetadata
  cacheKey : String
  aiOutcome : Except String (List FieldMapping)
  cachedAtNow : String

/-- The plain object returned by `recognizeForm`. -/
structure RecResult where
  status : String
  method : Option String := none
  mappings : Option (List FieldMapping) := none
  fieldCount : Option Nat := none
  message : Option String := none
deriving Repr, DecidableEq

/-- The shared keyword fallback tail of `recognizeForm` (always reached
when the cache misses and AI is disabled, fails, or yields nothing). -/
def recognizeKeywordTail (env : RecEnv) (store : CacheStore) (st : PageState) :
    RecResult × PageState × CacheStore :=
  let mappings := recognizeByKeywords env.formMetadata
  let st := { st with fieldMappings := some mappings, recognitionStatus := "done",
                      recognitionMethod := some "keyword" }
  let store := cacheMapping store env.cacheKey mappings env.cachedAtNow
  ({ status := "success", method := some "keyword", mappings := some mappings,
     fieldCount := some mappings.length }, st, store)

/-- `recognizeForm(useLlm)` of part_000 as a state transformer over
`pageState` and the cache store. -/
def recognizeForm (env : RecEnv) (store : CacheStore) (st : PageState) (useLlm : Bool) :
    RecResult × PageState × CacheStore :=
  if st.recognitionStatus = "recognizing" then
    ({ status := "already_recognizing" }, st, store)
  else
    let st := { st with recognitionStatus := "recognizing" }
    let formMetadata := env.formMetadata
    let st := { st with formMetadata := some formMetadata }
    if !formMetadata.hasForm then
      ({ status := "no_form",
         message := some "当前页面未检测到可填表单（若确有表单，可能是动态加载或非标准结构）" },
       { st with recognitionStatus := "failed" }, store)
    else
      let cacheKey := env.cacheKey
      let cached := getCachedMapping store cacheKey
      match cached with
      | some c =>
        if c.length > 0 then
          let st := { st with fieldMappings := some c, recognitionStatus := "done",
                              recognitionMethod := some "cache" }
          ({ status := "success", method := some "cache", mappings := some c,
             fieldCount := some c.length }, st, store)
        else
          if useLlm then
            match env.aiOutcome with
            | .ok aiResult =>
              if aiResult.length > 0 then
                let st := { st with fieldMappings := some aiResult, recognitionStatus := "done",
                                    recognitionMethod := some "ai" }
                let store := cacheMapping store cacheKey aiResult env.cachedAtNow
                ({ status := "success", method := some "ai", mappings := some aiResult,
                   fieldCount := some aiResult.length }, st, store)
              else recognizeKeywordTail env store st
            | .error _ => recognizeKeywordTail env store st
          else recognizeKeywordTail env store st
      | none =>
        if useLlm then
          match env.aiOutcome with
          | .ok aiResult =>
            if aiResult.length > 0 then
              let st := { st with fieldMappings := some aiResult, recognitionStatus := "done",
                                  recognitionMethod := some "ai" }
              let store := cacheMapping store cacheKey aiResult env.cachedAtNow
              ({ status := "success", method := some "ai", mappings := some aiResult,
                 fieldCount := some aiResult.length }, st, store)
            else recognizeKeywordTail env store st
          | .error _ => recognizeKeywordTail env store st
        else recognizeKeywordTail env store st

/-! ## The background AI-response parser (part_004 `parseAIResponse`)

The textual stage (code-fence stripping, first-JSON-array extraction,
`JSON.parse`) is modelled up to the parsed array: an unparsable or empty
response reaches the caller as `[]` before the loop below even runs.
The loop over the parsed entries is embedded verbatim. -/

/-- One parsed entry of the AI's JSON array.  `confidence` is `none`
when the property is absent. -/
structure RawAIMapping where
  fieldIndex : Nat
  standardField : String
  confidence : Option ℚ := none
deriving Repr, DecidableEq

/-- The `validFields` list of `parseAIResponse`. -/
def validFields : List String :=
  ["siteName", "email", "siteUrl", "category", "tags", "tagline",
   "shortDescription", "longDescription", "logo", "screenshot"]

/-- Conversion from the (already `validFields`-checked) JS string to the
closed enumeration. -/
def stdFieldOfString : String → Option StandardField
  | "siteName" => some .siteName
  | "email" => some .email
  | "siteUrl" => some .siteUrl
  | "category" => some .category
  | "tags" => some .tags
  | "tagline" => some .tagline
  | "shortDescription" => some .shortDescription
  | "longDescription" => some .longDescription
  | "logo" => some .logo
  | "screenshot" => some .screenshot
  | _ => none

/-- JS `mapping.confidence || 0.8` (absent and `0` both fall back). -/
def jsConfOr (c : Option ℚ) : ℚ :=
  match c with
  | none => (8 : ℚ) / 10
  | some x => if x = 0 then (8 : ℚ) / 10 else x

/-- The validation/translation loop of `parseAIResponse` over the parsed
array: out-of-range indices, `"unknown"` and invalid field names are
dropped; surviving entries become `method: 'ai'` mappings with
`confidence: mapping.confidence || 0.8` passed through unchanged. -/
def parseAIResponseLoop (aiMappings : List RawAIMapping) (formMetadata : FormMetadata) :
    List FieldMapping :=
  aiMappings.filterMap (fun m =>
    match formMetadata.fields.get? m.fieldIndex with
    | none => none
    | some field =>
      if m.standardField = "unknown" then none
      else if !(validFields.contains m.standardField) then none
      else
        match stdFieldOfString m.standardField with
        | none => none
        | some sf =>
          some { locator := field.locator, standardField := sf,
                 confidence := jsConfOr m.confidence, method := "ai",
                 xpath := field.xpath, locatorDesc := field.locatorDesc })

/-! ## Category / choice resolver (part_000) -/

/-- The `CATEGORY_SYNONYMS` table, in source order. -/
def CATEGORY_SYNONYMS : List (String × List String) :=
  [ ("视频", ["video", "media", "multimedia", "entertainment", "film", "movies", "streaming", "audio visual", "av", "影视", "影音", "短视频", "长视频", "娱乐"]),
    ("影视", ["视频", "video", "media", "film", "movies", "entertainment"]),
    ("影音", ["视频", "video", "audio", "media", "multimedia"]),
    ("娱乐", ["视频", "entertainment", "video", "media", "fun", "leisure"]),
    ("video", ["视频", "影视", "影音", "media", "multimedia", "entertainment", "film", "streaming"]),
    ("media", ["视频", "影视", "video", "multimedia", "entertainment", "streaming"]),
    ("ai", ["artificial intelligence", "machine learning", "ml", "人工智能", "智能", "ai tools"]),
    ("人工智能", ["ai", "artificial intelligence", "machine learning", "smart", "智能"]),
    ("智能", ["ai", "artificial intelligence", "smart", "intelligence"]),
    ("开发", ["development", "developer", "dev", "programming", "coding", "code", "开发工具"]),
    ("developer", ["开发", "development", "dev", "programming", "coding", "engineer"]),
    ("programming", ["开发", "programming", "coding", "developer", "code"]),
    ("code", ["开发", "programming", "coding", "developer"]),
    ("设计", ["design", "designer", "ui", "ux", "graphic", "creative", "visual"]),
    ("design", ["设计", "designer", "ui", "ux", "graphic", "creative", "visual"]),
    ("ui", ["设计", "design", "user interface", "interface", "ux"]),
    ("ux", ["设计", "design", "user experience", "experience", "ui"]),
    ("效率", ["productivity", "efficiency", "tools", "utility", "效率工具"]),
    ("productivity", ["效率", "efficiency", "tools", "utility", "work"]),
    ("tools", ["工具", "productivity", "utility", "resources"]),
    ("商业", ["business", "marketing", "sales", "enterprise", "b2b", "商务"]),
    ("business", ["商业", "marketing", "sales", "enterprise", "b2b"]),
    ("marketing", ["商业", "marketing", "promotion", "advertising", "growth", "营销"]),
    ("营销", ["marketing", "promotion", "advertising", "growth", "商业"]),
    ("写作", ["writing", "content", "copywriting", "text", "editor", "写作工具"]),
    ("writing", ["写作", "content", "copywriting", "text", "editor", "authoring"]),
    ("content", ["写作", "writing", "content creation", "copywriting", "文章"]),
    ("图片", ["image", "photo", "picture", "graphics", "visual", "imaging", "图像"]),
    ("image", ["图片", "photo", "picture", "graphics", "visual", "imaging"]),
    ("graphics", ["图片", "image", "design", "visual", "graphic design"]),
    ("音频", ["audio", "music", "sound", "voice", "podcast", "语音"]),
    ("audio", ["音频", "music", "sound", "voice", "podcast"]),
    ("music", ["音频", "audio", "sound", "歌曲", "音乐"]),
    ("教育", ["education", "learning", "training", "course", "tutorial", "teaching", "学习"]),
    ("education", ["教育", "learning", "training", "course", "tutorial"]),
    ("learning", ["教育", "education", "training", "course", "学习"]),
    ("电商", ["ecommerce", "e-commerce", "shopping", "store", "retail", "online store"]),
    ("ecommerce", ["电商", "e-commerce", "shopping", "store", "retail"]),
    ("社交", ["social", "social media", "community", "networking", "communication"]),
    ("social", ["社交", "social media", "community", "networking"]),
    ("金融", ["finance", "financial", "money", "banking", "investment", "payment", "财务"]),
    ("finance", ["金融", "financial", "money", "banking", "investment"]),
    ("健康", ["health", "healthcare", "medical", "wellness", "fitness", "健康医疗"]),
    ("health", ["健康", "healthcare", "medical", "wellness", "fitness"]),
    ("工具", ["tools", "utility", "resources", "helpers"]),
    ("其他", ["other", "misc", "miscellaneous", "general"]),
    ("免费", ["free", "freemium", "open source", "gratis"]),
    ("开源", ["open source", "opensource", "free", "github"]),
    ("startup", ["startup", "startups", "new", "launch", "新创", "创业"]),
    ("创业", ["startup", "entrepreneurship", "business", "新创"]),
    ("saas", ["saas", "software as a service", "cloud", "web app"]),
    ("api", ["api", "apis", "developer tools", "integration"]) ]

/-- JS `CATEGORY_SYNONYMS[key] || []`. -/
def synonymsFor (key : String) : List String :=
  match CATEGORY_SYNONYMS.find? (fun p => p.1 = key) with
  | some p => p.2
  | none => []

/-- JS `CATEGORY_SYNONYMS[key]` truthiness (property present). -/
def hasSynonyms (key : String) : Bool :=
  (CATEGORY_SYNONYMS.find? (fun p => p.1 = key)).isSome

/-- Normalized option row used by `findBestCategoryMatchFromOptions`
(`text` trimmed, `textLower` trimmed lowercase). -/
structure AvailOption where
  value : String
  text : String
  textLower : String
deriving Repr, DecidableEq

/-- Tier 3 of the resolver: for each synonym of the user category (in
table order), first an exact then a substring match over the options. -/
def synonymTier (availableOptions : List AvailOption) : List String → Option AvailOption
  | [] => none
  | synonym :: rest =>
    let synonymLower := jsToLower synonym
    match availableOptions.find? (fun opt => opt.textLower = synonymLower) with
    | some o => some o
    | none =>
      match availableOptions.find? (fun opt =>
          jsIncludes opt.textLower synonymLower || jsIncludes synonymLower opt.textLower) with
      | some o => some o
      | none => synonymTier availableOptions rest

/-- Tier 4 of the resolver: reverse synonym lookup per option (exact
synonym first, then substring, within the same option iteration). -/
def reverseTier (userCategoryLower : String) : List AvailOption → Option AvailOption
  | [] => none
  | option :: rest =>
    let optionSynonyms := synonymsFor option.textLower
    if hasSynonyms option.textLower &&
        optionSynonyms.any (fun s => jsToLower s = userCategoryLower) then some option
    else if hasSynonyms option.textLower &&
        optionSynonyms.any (fun s =>
          jsIncludes (jsToLower s) userCategoryLower || jsIncludes userCategoryLower (jsToLower s)) then
      some option
    else reverseTier userCategoryLower rest

/-- Tier 5 of the resolver: word-boundary fuzzy match. -/
def fuzzyTier (userWords : List String) : List AvailOption → Option AvailOption
  | [] => none
  | option :: rest =>
    let optionWords := jsSplitSep option.textLower
    if userWords.any (fun uw => optionWords.any (fun ow =>
        uw = ow || jsIncludes ow uw || jsIncludes uw ow)) then some option
    else fuzzyTier userWords rest

/-- The option-row normalization of the resolver:
`options.map(opt => ({value, text: text.trim(), textLower:
text.toLowerCase().trim()})).filter(opt => opt.text)`. -/
def availableOptionsOf (options : List OptionItem) : List AvailOption :=
  (options.map (fun opt =>
    { value := opt.value, text := jsTrim opt.text,
      textLower := jsTrim (jsToLower opt.text) })).filter
    (fun opt => opt.text ≠ "")

/-- Tier 1 predicate: `opt.value === userCategory || opt.text ===
userCategory || opt.textLower === userCategoryLower`. -/
def exactTierPred (userCategory userCategoryLower : String) (opt : AvailOption) : Bool :=
  opt.value = userCategory || opt.text = userCategory || opt.textLower = userCategoryLower

/-- Tier 2 predicate: substring containment in either direction. -/
def substrTierPred (userCategoryLower : String) (opt : AvailOption) : Bool :=
  jsIncludes opt.textLower userCategoryLower || jsIncludes userCategoryLower opt.textLower

/-- `findBestCategoryMatchFromOptions(options, userCategory)` of
part_000: ordered tiers over the non-empty-text option rows. -/
def findBestCategoryMatchFromOptions (options : List OptionItem) (userCategory : String) :
    Option AvailOption :=
  if options.length = 0 then none
  else
    let userCategoryLower := jsTrim (jsToLower userCategory)
    let availableOptions := availableOptionsOf options
    match availableOptions.find? (exactTierPred userCategory userCategoryLower) with
    | some o => some o
    | none =>
      match availableOptions.find? (substrTierPred userCategoryLower) with
      | some o => some o
      | none =>
        match synonymTier availableOptions (synonymsFor userCategoryLower) with
        | some o => some o
        | none =>
          match reverseTier userCategoryLower availableOptions with
          | some o => some o
          | none => fuzzyTier (jsSplitSep userCategoryLower) availableOptions

/-! ## URL handling (part_000 `getUrlValueForInput`)

The browser's `new URL` constructor is modelled for absolute http(s)
URLs: scheme and host are lowercased, the fragment is cut off, the
hostname excludes userinfo and port, a missing path reads as `/`.
Percent-encoding and path normalization are not modelled; the claims
only evaluate it on already-normalized URLs. -/

/-- The members of a parsed URL that the code reads. -/
structure URLParts where
  hostname : String
  pathname : String
  search : String
deriving Repr, DecidableEq

/-- Case-insensitive test for the JS regex `/^https?:\/\//i`. -/
def startsWithProto (s : String) : Bool :=
  jsStartsWith (jsToLower s) "http://" || jsStartsWith (jsToLower s) "https://"

/-- `trimmed.replace(/^https?:\/\//i, '')`. -/
def stripProtoOnce (s : String) : String :=
  if jsStartsWith (jsToLower s) "https://" then jsDrop s 8
  else if jsStartsWith (jsToLower s) "http://" then jsDrop s 7
  else s

/-- Model of `new URL(s)` for absolute http(s) URLs; `none` models the
`TypeError` thrown on a malformed URL (here: no protocol or empty host). -/
def parseURL (s : String) : Option URLParts :=
  if !startsWithProto s then none
  else
    let rest := if jsStartsWith (jsToLower s) "https://" then jsDrop s 8 else jsDrop s 7
    let beforeHash := ((rest.toList.takeWhile (fun c => c ≠ '#'))).asString
    let authorityChars := beforeHash.toList.takeWhile (fun c => c ≠ '/' && c ≠ '?')
    let afterAuthority := (beforeHash.toList.drop authorityChars.length).asString
    let authority := authorityChars.asString
    let hostPort := ((authority.toList.reverse.takeWhile (fun c => c ≠ '@')).reverse).asString
    let hostname := jsToLower ((hostPort.toList.takeWhile (fun c => c ≠ ':')).asString)
    if hostname = "" then none
    else
      let pathname := (afterAuthority.toList.takeWhile (fun c => c ≠ '?')).asString
      let pathname := if pathname = "" then "/" else pathname
      let query := (afterAuthority.toList.dropWhile (fun c => c ≠ '?')).asString
      let search := if query = "?" then "" else query
      some { hostname := hostname, pathname := pathname, search := search }

/-- The members of an input element that the fill code inspects. -/
structure Element where
  tagName : String
  etype : String := ""
  value : String := ""
  classes : List String := []
  contenteditable : Bool := false
  prevSiblingText : Option String := none
deriving Repr, DecidableEq

/-- The protocol-addon test of `getUrlValueForInput`: the input's current
value, or the immediately preceding sibling's text, trims and lowercases
to exactly `https://` or `http://`. -/
def hasFixedProtoAddon (input : Element) : Bool :=
  let currentValue := jsToLower (jsTrim input.value)
  if currentValue = "https://" || currentValue = "http://" then true
  else
    match input.prevSiblingText with
    | some t =>
      let t := jsToLower (jsTrim t)
      t = "https://" || t = "http://"
    | none => false

/-- `getUrlValueForInput(input, fullUrl)` of part_000: strip the protocol
(keeping `hostname + pathname + search`, with a bare `/` path elided)
exactly when the control visibly carries a fixed protocol addon,
otherwise return the full absolute URL (prefixing `https://` if the
stored value has no protocol). -/
def getUrlValueForInput (input : Element) (fullUrl : String) : String :=
  if fullUrl = "" then fullUrl
  else
    let trimmed := jsTrim fullUrl
    if hasFixedProtoAddon input then
      let withProtocol := if startsWithProto trimmed then trimmed else "https://" ++ trimmed
      match parseURL withProtocol with
      | some u => u.hostname ++ (if u.pathname ≠ "/" then u.pathname else "") ++ u.search
      | none => stripProtoOnce trimmed
    else
      if !startsWithProto trimmed then "https://" ++ trimmed else trimmed

/-! ## Fill executor (part_000 `fillForm`)

The DOM write primitives (`fillFileInputWithDataUrl`, `fillCodeMirror`,
`fillContentEditable`, `fillSelectElement`, `fillCustomSelect`,
`fillInputElement`, the raw `.value` assignment) and the element lookups
are oracles indexed by the loop iteration (the DOM may change between
fields); each may throw, modelled by `Except String`.  The fixed
inter-field delays are no-ops in this sequential model. -/

/-- Stored record of the selected site profile (`SiteValueRecord`). -/
structure SiteData where
  values : StandardField → Option String
  logoDataUrl : Option String := none
  screenshotDataUrl : Option String := none

/-- Per-iteration oracles for `fillForm`'s DOM interactions.  The
`Except` result of each write primitive records whether the JS call
returned or threw. -/
structure FillEnv where
  findElement : Nat → Locator → Option Element
  findTagsTrigger : Nat → Option Element
  findIntroTextarea : Nat → Option Element
  fillFile : Nat → Except String Unit
  fillCM : Nat → Except String Unit
  fillCE : Nat → Except String Unit
  fillSelect : Nat → Except String Bool
  fillCustom : Nat → Except String Bool
  fillInput : Nat → Except String Unit
  fillOther : Nat → Except String Unit
  hasCaptcha : Bool

/-- Outcome of one loop iteration that did not throw: error strings
pushed, number of fields filled (0 or 1), and the text value written for
a plain input/other control (for tracing the siteUrl transformation). -/
structure FieldStep where
  errors : List String := []
  filled : Nat := 0
  written : Option String := none
deriving Repr, DecidableEq

/-- The body of `fillForm`'s per-mapping loop, before its surrounding
`try/catch`: a thrown `Except.error` corresponds to a JS exception that
the loop-level catch will turn into a `Failed to fill ...` entry.  The
two file-upload branches carry their own local `try/catch` and therefore
never throw. -/
def fillFieldBody (env : FillEnv) (siteData : SiteData) (i : Nat) (mapping : FieldMapping) :
    Except String FieldStep := do
  let element0 := env.findElement i mapping.locator
  let element := match element0 with
    | some e => some e
    | none => if mapping.standardField = StandardField.tags then env.findTagsTrigger i else none
  match element with
  | none =>
    return { errors := ["Could not find element for " ++ mapping.standardField.jsName] }
  | some element =>
    let value := siteData.values mapping.standardField
    if mapping.standardField = StandardField.logo ∧ element.etype = "file" then
      let logoDataUrl := jsOrStr siteData.logoDataUrl value
      match logoDataUrl with
      | some s =>
        if jsStartsWith s "data:" then
          match env.fillFile i with
          | .ok _ => return { filled := 1 }
          | .error m => return { errors := ["Failed to fill logo file: " ++ m] }
        else return {}
      | none => return {}
    else if mapping.standardField = StandardField.screenshot ∧ element.etype = "file" then
      let screenshotDataUrl := jsOrStr siteData.screenshotDataUrl value
      match screenshotDataUrl with
      | some s =>
        if jsStartsWith s "data:" then
          match env.fillFile i with
          | .ok _ => return { filled := 1 }
          | .error m => return { errors := ["Failed to fill screenshot file: " ++ m] }
        else return {}
      | none => return {}
    else
      match value with
      | none => return {}
      | some v =>
        if v = "" then return {}
        else
          let v := if mapping.standardField = StandardField.siteUrl
            then getUrlValueForInput element v else v
          let element? : Option Element :=
            if mapping.standardField = StandardField.longDescription ∧
                element.tagName ≠ "TEXTAREA" ∧ element.tagName ≠ "INPUT"
            then env.findIntroTextarea i
            else some element
          match element? with
          | none => return {}
          | some element =>
            if element.classes.contains "CodeMirror" then do
              let _ ← env.fillCM i
              return { filled := 1 }
            else if element.contenteditable || element.classes.contains "ProseMirror" then do
              let _ ← env.fillCE i
              return { filled := 1 }
            else if element.tagName = "SELECT" then do
              let _ ← env.fillSelect i
              return { filled := 1 }
            else if (mapping.standardField = StandardField.category ∨
                mapping.standardField = StandardField.tags) ∧ element.tagName ≠ "SELECT" then do
              let filled ← env.fillCustom i
              return { filled := if filled then 1 else 0 }
            else if element.tagName = "TEXTAREA" || element.etype = "text" ||
                element.etype = "url" || element.etype = "email" then do
              let _ ← env.fillInput i
              return { filled := 1, written := some v }
            else do
              let _ ← env.fillOther i
              return { filled := 1, written := some v }

/-- The `fillForm` loop with its per-field `try/catch`: a thrown
exception becomes one `Failed to fill <field>: <message>` entry and the
remaining mappings are still processed.  Returns the total `filledCount`
and the accumulated `errors` list. -/
def fillLoop (env : FillEnv) (siteData : SiteData) : List FieldMapping → Nat → Nat × List String
  | [], _ => (0, [])
  | mapping :: rest, i =>
    let step := match fillFieldBody env siteData i mapping with
      | .ok s => s
      | .error msg =>
        { errors := ["Failed to fill " ++ mapping.standardField.jsName ++ ": " ++ msg] }
    let tail := fillLoop env siteData rest (i + 1)
    (step.filled + tail.1, step.errors ++ tail.2)

/-- The summary object returned by `fillForm`. -/
structure FillSummary where
  filledCount : Nat
  totalFields : Nat
  errors : List String
  hasCaptcha : Bool
deriving Repr, DecidableEq

/-- `fillForm(siteId)` of part_000.  `siteData?` is the resolved site
record (`getSiteData`); its absence is the only hard throw.  When no
mapping list is in `pageState` yet, a keyword `recognizeForm` pass runs
first and a non-success outcome also raises.  Every per-field failure is
demoted to an error string; the function otherwise always returns the
`{filledCount, totalFields, errors, hasCaptcha}` summary. -/
def fillForm (env : FillEnv) (renv : RecEnv) (store : CacheStore) (st : PageState)
    (siteData? : Option SiteData) : Except String FillSummary := do
  match siteData? with
  | none => throw "Site not found or no site selected"
  | some siteData =>
    let st ←
      match st.fieldMappings with
      | some _ => pure st
      | none =>
        let (res, st', _store') := recognizeForm renv store st false
        if res.status ≠ "success" then
          throw ("Failed to recognize form: " ++
            (match res.message with | some m => m | none => ""))
        else pure st'
    let mappings := match st.fieldMappings with
      | some l => l
      | none => []
    let result := fillLoop env siteData mappings 0
    return { filledCount := result.1, totalFields := mappings.length,
             errors := result.2, hasCaptcha := env.hasCaptcha }

/-! ## Claim theorems -/

section ClaimTheorems

/- Batteries marks the `Rat` arithmetic operations `@[irreducible]`,
which blocks `decide`'s evaluation; the kernel itself reduces them fine.
Restore default transparency locally so concrete runs of the embedded
engine can be settled by `decide`. -/
attribute [local semireducible] Rat.mul Rat.add Rat.inv

/-- C5: writing a mapping list under a page key always stores the
`{mappings, cachedAt}` envelope, reading the same key back returns the
identical list (content and order), and a legacy bare-array entry under
the key is read identically to an enveloped one. -/
theorem C5_cache_roundTrip (store : CacheStore) (key : String)
    (mappings : List FieldMapping) (ts : String) :
    cacheMapping store key mappings ts key = some (CacheVal.envelope mappings ts) ∧
    getCachedMapping (cacheMapping store key mappings ts) key = some mappings ∧
    getCachedMapping (fun k => if k = key then some (CacheVal.legacy mappings) else store k) key
      = some mappings := by
  refine ⟨?_, ?_, ?_⟩ <;> simp [cacheMapping, getCachedMapping]

/-- C10: cache writes and clears are key-local — under any distinct key
the stored entry is unchanged. -/
theorem C10_cache_frame (store : CacheStore) (k k' : String)
    (mappings : List FieldMapping) (ts : String) (h : k' ≠ k) :
    cacheMapping store k mappings ts k' = store k' ∧ clearMapping store k k' = store k' := by
  constructor <;> simp [cacheMapping, clearMapping, h]

/-- Empty store used by concrete witnesses. -/
def demoStore : CacheStore := fun _ => none

/-- A mapping list used by concrete witnesses. -/
def demoMappings : List FieldMapping :=
  [{ locator := Locator.byId "site-url", standardField := StandardField.siteUrl,
     confidence := 1 / 2, method := "keyword" }]

/-- Witness for C10 at concrete distinct keys. -/
theorem C10_cache_frame_witness :
    ("b.example/submit" : String) ≠ "a.example/submit" ∧
    (cacheMapping demoStore "a.example/submit" demoMappings "t" "b.example/submit"
        = demoStore "b.example/submit" ∧
      clearMapping demoStore "a.example/submit" "b.example/submit"
        = demoStore "b.example/submit") :=
  ⟨by decide, C10_cache_frame demoStore "a.example/submit" "b.example/submit"
    demoMappings "t" (by decide)⟩

/-- C8: a `recognizeForm` call that arrives while `pageState` reports a
recognition in progress returns only `status: already_recognizing` and
leaves the page state and the cache store untouched — no extraction,
matching or cache write happens, so (the engine being single-threaded
per page) a second recognition pass is never started while one is in
flight. -/
theorem C8_reentrancy (env : RecEnv) (store : CacheStore) (st : PageState) (useLlm : Bool)
    (h : st.recognitionStatus = "recognizing") :
    recognizeForm env store st useLlm = ({ status := "already_recognizing" }, st, store) := by
  simp [recognizeForm, h]

/-- Metadata of a one-field email form, used by concrete witnesses. -/
def emailFm : FormMetadata :=
  { hasForm := true,
    fields := [{ locator := Locator.byName "email" 0, type := "email", name := "email" }] }

/-- Recognition environment used by concrete witnesses. -/
def recDemoEnv : RecEnv :=
  { formMetadata := emailFm, cacheKey := "a.example/submit",
    aiOutcome := Except.error "AI 请求超时（20秒）", cachedAtNow := "t" }

/-- Page state with a recognition pass in flight. -/
def busyState : PageState := { recognitionStatus := "recognizing" }

/-- Witness for C8: the concrete busy state is rejected unchanged. -/
theorem C8_reentrancy_witness :
    busyState.recognitionStatus = "recognizing" ∧
    recognizeForm recDemoEnv demoStore busyState true
      = ({ status := "already_recognizing" }, busyState, demoStore) :=
  ⟨rfl, C8_reentrancy recDemoEnv demoStore busyState true rfl⟩

/-- The field of the C3 failing input: `<input type="text" name="logo_url">`
labelled `Logo URL` (the edge case that doc/test-regex-patterns.js marks
`excludeFromSiteUrl`). -/
def logoUrlField : Field :=
  { locator := Locator.byName "logo_url" 0, type := "text",
    name := "logo_url", label := "Logo URL" }

/-- C3: evaluation of the content script's `recognizeByKeywords`
(part_000) at the failing input.  The matcher has no exclude patterns:
`logo_url` scores 4 for `siteUrl` (keyword `url` in name and label) and
4 for `logo`, and the enumeration-order tie-break assigns `siteUrl` —
the assignment that the claim, the library matcher's `excludePatterns`
(src/lib/formRecognizer.js) and the repo's own test expectations
(doc/test-regex-patterns.js) all forbid. -/
theorem C3_logoUrl_assigned_siteUrl :
    recognizeByKeywords { hasForm := true, fields := [logoUrlField] } =
      [{ locator := Locator.byName "logo_url" 0, standardField := StandardField.siteUrl,
         confidence := 1 / 2, method := "keyword" }] := by
  decide

/-- C1: with a form present, no cached mapping, and the external
classifier either throwing (any rejection — timeout, HTTP error,
transport failure) or resolving to an empty list (the background returns
`[]` for an empty or unparsable response), `recognizeForm(true)` still
returns `status: success` with `method: keyword` and the Matcher's
mappings.  `recognizeForm` is a total function into `RecResult` here, so
the classifier's exception cannot reach the caller. -/
theorem C1_classifier_fallback (env : RecEnv) (store : CacheStore) (st : PageState)
    (h1 : st.recognitionStatus ≠ "recognizing")
    (h2 : env.formMetadata.hasForm = true)
    (h3 : getCachedMapping store env.cacheKey = none)
    (h4 : env.aiOutcome = Except.ok [] ∨ ∃ e, env.aiOutcome = Except.error e) :
    (recognizeForm env store st true).1 =
      { status := "success", method := some "keyword",
        mappings := some (recognizeByKeywords env.formMetadata),
        fieldCount := some (recognizeByKeywords env.formMetadata).length } := by
  rcases h4 with h4 | ⟨e, h4⟩ <;>
    simp [recognizeForm, recognizeKeywordTail, h1, h2, h3, h4]

/-- Witness for C1: concrete one-field email form, empty cache, and a
classifier timeout; the run returns the keyword result. -/
theorem C1_classifier_fallback_witness :
    (({} : PageState).recognitionStatus ≠ "recognizing") ∧
    recDemoEnv.formMetadata.hasForm = true ∧
    getCachedMapping demoStore recDemoEnv.cacheKey = none ∧
    (recognizeForm recDemoEnv demoStore {} true).1 =
      { status := "success", method := some "keyword",
        mappings := some (recognizeByKeywords recDemoEnv.formMetadata),
        fieldCount := some (recognizeByKeywords recDemoEnv.formMetadata).length } :=
  ⟨by decide, rfl, rfl,
    C1_classifier_fallback recDemoEnv demoStore {} (by decide) rfl rfl
      (Or.inr ⟨"AI 请求超时（20秒）", rfl⟩)⟩

/-- Metadata whose single field matches nothing (used by the C9
witness: its keyword pass yields zero mappings, which still get
cached). -/
def unmatchedFm : FormMetadata :=
  { hasForm := true, fields := [{ locator := Locator.byId "zz", type := "text", name := "zz" }] }

/-- Recognition environment for the C9 witness. -/
def recEmptyEnv : RecEnv :=
  { formMetadata := unmatchedFm, cacheKey := "a.example/submit",
    aiOutcome := Except.ok [], cachedAtNow := "t" }

/-- Store that already holds an empty enveloped mapping list under the
page key (exactly what a previous zero-match recognition wrote). -/
def emptyEntryStore : CacheStore :=
  cacheMapping demoStore "a.example/submit" [] "t0"

/-- C9: a cached entry whose mapping list is empty is never served as a
cache hit — the guard `cached && cached.length > 0` fails, matching is
re-run, the result's method is `keyword` (or `ai` when the classifier is
enabled and returns a non-empty list), never `cache`; and the keyword
pass unconditionally re-caches its (possibly again empty) result. -/
theorem C9_empty_cache_is_miss (env : RecEnv) (store : CacheStore) (st : PageState)
    (h1 : st.recognitionStatus ≠ "recognizing")
    (h2 : env.formMetadata.hasForm = true)
    (h3 : getCachedMapping store env.cacheKey = some []) :
    ((recognizeForm env store st false).1.status = "success" ∧
      (recognizeForm env store st false).1.method = some "keyword" ∧
      ¬ (recognizeForm env store st false).1.method = some "cache" ∧
      (recognizeForm env store st false).2.2 env.cacheKey =
        some (CacheVal.envelope (recognizeByKeywords env.formMetadata) env.cachedAtNow)) ∧
    (∀ ai : List FieldMapping, env.aiOutcome = Except.ok ai → ai ≠ [] →
      (recognizeForm env store st true).1.method = some "ai") := by
  constructor
  · simp [recognizeForm, recognizeKeywordTail, cacheMapping, h1, h2, h3]
  · intro ai hai hne
    have hlen : ai.length > 0 := List.length_pos.mpr hne
    simp [recognizeForm, recognizeKeywordTail, h1, h2, h3, hai, hlen]

/-- Witness for C9: the concrete empty enveloped entry is treated as a
miss; the zero-match keyword result is re-cached as an (empty)
envelope. -/
theorem C9_empty_cache_is_miss_witness :
    (({} : PageState).recognitionStatus ≠ "recognizing") ∧
    unmatchedFm.hasForm = true ∧
    getCachedMapping emptyEntryStore recEmptyEnv.cacheKey = some [] ∧
    ((recognizeForm recEmptyEnv emptyEntryStore {} false).1.status = "success" ∧
      (recognizeForm recEmptyEnv emptyEntryStore {} false).1.method = some "keyword" ∧
      ¬ (recognizeForm recEmptyEnv emptyEntryStore {} false).1.method = some "cache" ∧
      (recognizeForm recEmptyEnv emptyEntryStore {} false).2.2 recEmptyEnv.cacheKey =
        some (CacheVal.envelope (recognizeByKeywords recEmptyEnv.formMetadata)
          recEmptyEnv.cachedAtNow)) :=
  ⟨by decide, rfl, by decide,
    (C9_empty_cache_is_miss recEmptyEnv emptyEntryStore {} (by decide) rfl (by decide)).1⟩

/-- Any mapping emitted by the per-field keyword matcher has confidence
`min(bestScore/8, 1) ∈ [0, 1]` (the push guard gives `bestScore ≥ 2`)
and method `keyword`. -/
theorem pushKeywordMatch_bounds (f : Field) (best : Option StandardField × ℚ)
    (m : FieldMapping) (h : pushKeywordMatch f best = some m) :
    0 ≤ m.confidence ∧ m.confidence ≤ 1 ∧ m.method = "keyword" := by
  obtain ⟨b1, b2⟩ := best
  cases b1 with
  | none => simp [pushKeywordMatch] at h
  | some bf =>
    simp only [pushKeywordMatch] at h
    split at h
    · next hge =>
      simp only [Option.some.injEq] at h
      subst h
      refine ⟨?_, min_le_right _ _, rfl⟩
      exact le_min (div_nonneg (by linarith) (by norm_num)) (by norm_num)
    · exact absurd h (by simp)

/-- Lift of `pushKeywordMatch_bounds` through the per-field body. -/
theorem matchOneKeyword_bounds (f : Field) (m : FieldMapping)
    (h : matchOneKeyword f = some m) :
    0 ≤ m.confidence ∧ m.confidence ≤ 1 ∧ m.method = "keyword" := by
  simp only [matchOneKeyword] at h
  exact pushKeywordMatch_bounds f _ m h

/-- A classifier-reported confidence that the JS fallback
`mapping.confidence || 0.8` maps into `[0, 1]`: absent, zero, or already
in `(0, 1]`. -/
def confOK : Option ℚ → Bool
  | none => true
  | some x => decide (x = 0 ∨ (0 < x ∧ x ≤ 1))

/-- `mapping.confidence || 0.8` lies in `[0, 1]` for a `confOK` input. -/
theorem jsConfOr_bounds (c : Option ℚ) (h : confOK c = true) :
    0 ≤ jsConfOr c ∧ jsConfOr c ≤ 1 := by
  cases c with
  | none => norm_num [jsConfOr]
  | some x =>
    simp only [confOK, decide_eq_true_eq] at h
    rcases h with h | ⟨h1, h2⟩
    · norm_num [jsConfOr, h]
    · have hx : ¬ x = 0 := by positivity
      simp only [jsConfOr, if_neg hx]
      exact ⟨le_of_lt h1, h2⟩

/-- Any mapping emitted by the AI-response loop carries
`jsConfOr` of the classifier-reported confidence and method `ai`. -/
theorem parseAIResponseLoop_shape (raws : List RawAIMapping) (fm : FormMetadata)
    (m : FieldMapping) (h : m ∈ parseAIResponseLoop raws fm) :
    ∃ r ∈ raws, m.confidence = jsConfOr r.confidence ∧ m.method = "ai" := by
  simp only [parseAIResponseLoop] at h
  obtain ⟨r, hr, hm⟩ := List.mem_filterMap.mp h
  refine ⟨r, hr, ?_⟩
  split at hm
  · exact absurd hm (by simp)
  · split at hm
    · exact absurd hm (by simp)
    · split at hm
      · exact absurd hm (by simp)
      · split at hm
        · exact absurd hm (by simp)
        · cases hm; exact ⟨rfl, rfl⟩

/-- C7 counterexample: the AI-response loop does not clamp the
classifier-reported confidence.  A parsed entry reporting confidence `2`
yields a `FieldMapping` with confidence `2 ∉ [0, 1]`, refuting the claim
as stated. -/
theorem C7_confidence_counterexample :
    (parseAIResponseLoop
        [{ fieldIndex := 0, standardField := "siteName", confidence := some 2 }]
        { hasForm := true, fields := [{ locator := Locator.byId "f0" }] }).map
        (fun m => m.confidence) = [2] ∧
    ¬ ((2 : ℚ) ≤ 1) := by
  constructor
  · decide
  · norm_num

/-- C7 (amended): every mapping produced by the keyword Matcher has
confidence in `[0, 1]` (indeed in `[1/4, 1]`) and method `keyword`;
every mapping produced by the classifier adapter has method `ai` and
confidence `reported || 0.8`, which lies in `[0, 1]` provided each
classifier-reported confidence is absent, zero, or itself in `(0, 1]` —
an out-of-range report is passed through unclamped (see the
counterexample). -/
theorem C7_confidence_amended (fm : FormMetadata) (raws : List RawAIMapping) (m : FieldMapping)
    (h : m ∈ recognizeByKeywords fm ∨
      (m ∈ parseAIResponseLoop raws fm ∧ ∀ r ∈ raws, confOK r.confidence = true)) :
    0 ≤ m.confidence ∧ m.confidence ≤ 1 ∧ (m.method = "keyword" ∨ m.method = "ai") := by
  rcases h with h | ⟨h, hc⟩
  · simp only [recognizeByKeywords] at h
    obtain ⟨f, _, hm⟩ := List.mem_filterMap.mp h
    obtain ⟨h0, h1, h2⟩ := matchOneKeyword_bounds f m hm
    exact ⟨h0, h1, Or.inl h2⟩
  · obtain ⟨r, hr, hconf, hmeth⟩ := parseAIResponseLoop_shape raws fm m h
    obtain ⟨h0, h1⟩ := jsConfOr_bounds r.confidence (hc r hr)
    rw [hconf]
    exact ⟨h0, h1, Or.inr hmeth⟩

/-- Form metadata for the C7 witness. -/
def aiDemoFm : FormMetadata :=
  { hasForm := true, fields := [{ locator := Locator.byId "f0" }] }

/-- Parsed classifier response for the C7 witness. -/
def aiDemoRaws : List RawAIMapping :=
  [{ fieldIndex := 0, standardField := "siteUrl", confidence := some (9 / 10) }]

/-- The mapping the adapter produces from `aiDemoRaws`. -/
def aiDemoMapping : FieldMapping :=
  { locator := Locator.byId "f0", standardField := StandardField.siteUrl,
    confidence := 9 / 10, method := "ai" }

/-- Witness for the amended C7 at a concrete classifier response. -/
theorem C7_confidence_amended_witness :
    aiDemoMapping ∈ parseAIResponseLoop aiDemoRaws aiDemoFm ∧
    confOK (some ((9 : ℚ) / 10)) = true ∧
    (0 ≤ aiDemoMapping.confidence ∧ aiDemoMapping.confidence ≤ 1 ∧
      (aiDemoMapping.method = "keyword" ∨ aiDemoMapping.method = "ai")) :=
  ⟨by decide, by decide,
    C7_confidence_amended aiDemoFm aiDemoRaws aiDemoMapping (Or.inr ⟨by decide, by decide⟩)⟩

/-- The claim's reading of an exact match: by option value or option
text, case-sensitively or case-insensitively. -/
def claimExactMatch (userValue : String) (opt : OptionItem) : Prop :=
  opt.value = userValue ∨ opt.text = userValue ∨
  jsToLower opt.value = jsToLower userValue ∨ jsToLower opt.text = jsToLower userValue

/-- `synonymTier` finds nothing over an empty option list. -/
theorem synonymTier_nil : ∀ syns : List String, synonymTier [] syns = none
  | [] => rfl
  | _ :: rest => synonymTier_nil rest

/-- C4 counterexample: two exact matches in the claim's sense that the
resolver does not return.  An option whose text is empty is filtered out
before any tier runs — `{value: "x", text: ""}` matches the user value
`"x"` exactly by value, yet the resolver yields `null`.  And the exact
tier compares option values only case-sensitively — `{value: "ABC",
text: "zzz"}` matches `"abc"` case-insensitively by value, yet the
resolver yields `null`. -/
theorem C4_exact_counterexample :
    claimExactMatch "x" { value := "x", text := "" } ∧
    findBestCategoryMatchFromOptions [{ value := "x", text := "" }] "x" = none ∧
    claimExactMatch "abc" { value := "ABC", text := "zzz" } ∧
    findBestCategoryMatchFromOptions [{ value := "ABC", text := "zzz" }] "abc" = none := by
  refine ⟨Or.inl rfl, by decide, Or.inr (Or.inr (Or.inl (by decide))), by decide⟩

/-- C4 (amended): restricted to option rows that survive normalization
(non-empty trimmed text) and to the implemented exact tier (value
case-sensitively; text case-sensitively, or case-insensitively after
trim/lowercase), the first exact match is always returned — no
substring, synonym or fuzzy match can win over it — and the resolver
returns `null` exactly when every tier (exact, substring, synonym,
reverse-synonym, word-fuzzy) fails. -/
theorem C4_exact_first (options : List OptionItem) (userCategory : String) (o : AvailOption) :
    ((availableOptionsOf options).find?
        (exactTierPred userCategory (jsTrim (jsToLower userCategory))) = some o →
      findBestCategoryMatchFromOptions options userCategory = some o) ∧
    (findBestCategoryMatchFromOptions options userCategory = none →
      (availableOptionsOf options).find?
          (exactTierPred userCategory (jsTrim (jsToLower userCategory))) = none ∧
      (availableOptionsOf options).find? (substrTierPred (jsTrim (jsToLower userCategory))) = none ∧
      synonymTier (availableOptionsOf options) (synonymsFor (jsTrim (jsToLower userCategory))) = none ∧
      reverseTier (jsTrim (jsToLower userCategory)) (availableOptionsOf options) = none ∧
      fuzzyTier (jsSplitSep (jsTrim (jsToLower userCategory))) (availableOptionsOf options) = none) := by
  constructor
  · intro h
    have hne : ¬ options.length = 0 := by
      intro h0
      rw [List.length_eq_zero] at h0
      subst h0
      simp [availableOptionsOf] at h
    simp only [findBestCategoryMatchFromOptions, if_neg hne]
    rw [h]
  · intro h
    by_cases h0 : options.length = 0
    · rw [List.length_eq_zero] at h0
      subst h0
      refine ⟨by simp [availableOptionsOf], by simp [availableOptionsOf], ?_, rfl, rfl⟩
      simp only [availableOptionsOf, List.map_nil, List.filter_nil]
      exact synonymTier_nil _
    · simp only [findBestCategoryMatchFromOptions, if_neg h0] at h
      cases e1 : (availableOptionsOf options).find?
          (exactTierPred userCategory (jsTrim (jsToLower userCategory))) with
      | some o1 => rw [e1] at h; exact absurd h (by simp)
      | none =>
        rw [e1] at h
        cases e2 : (availableOptionsOf options).find?
            (substrTierPred (jsTrim (jsToLower userCategory))) with
        | some o2 => rw [e2] at h; exact absurd h (by simp)
        | none =>
          rw [e2] at h
          cases e3 : synonymTier (availableOptionsOf options)
              (synonymsFor (jsTrim (jsToLower userCategory))) with
          | some o3 => rw [e3] at h; exact absurd h (by simp)
          | none =>
            rw [e3] at h
            cases e4 : reverseTier (jsTrim (jsToLower userCategory))
                (availableOptionsOf options) with
            | some o4 => rw [e4] at h; exact absurd h (by simp)
            | none =>
              rw [e4] at h
              exact ⟨rfl, rfl, rfl, rfl, h⟩

/-- Options for the C4 witness: the substring tier would return the
first option (`"ai tools"` contains `"ai"`), but the exact tier matches
the second option's text and wins. -/
def c4Options : List OptionItem :=
  [{ value := "1", text := "AI Tools" }, { value := "2", text := "ai" }]

/-- Witness for the amended C4: the exact match is returned even though
a looser substring match exists on an earlier option. -/
theorem C4_exact_first_witness :
    (availableOptionsOf c4Options).find? (exactTierPred "ai" (jsTrim (jsToLower "ai")))
      = some { value := "2", text := "ai", textLower := "ai" } ∧
    (availableOptionsOf c4Options).find? (substrTierPred (jsTrim (jsToLower "ai")))
      = some { value := "1", text := "AI Tools", textLower := "ai tools" } ∧
    findBestCategoryMatchFromOptions c4Options "ai"
      = some { value := "2", text := "ai", textLower := "ai" } :=
  ⟨by decide, by decide, (C4_exact_first c4Options "ai"
      { value := "2", text := "ai", textLower := "ai" }).1 (by decide)⟩

/-- C2: with a mapping list present and a selected site profile, the
fill operation returns the `{filledCount, totalFields, errors,
hasCaptcha}` summary — never a thrown error; with no site record it
throws the hard `Site not found` error; and a per-field exception is
demoted to one `Failed to fill ...` entry while the remaining fields are
still attempted. -/
theorem C2_fill_summary (env : FillEnv) (renv : RecEnv) (store : CacheStore) (st : PageState)
    (siteData : SiteData) (mappings : List FieldMapping)
    (h : st.fieldMappings = some mappings) :
    fillForm env renv store st none = Except.error "Site not found or no site selected" ∧
    fillForm env renv store st (some siteData) =
      Except.ok { filledCount := (fillLoop env siteData mappings 0).1,
                  totalFields := mappings.length,
                  errors := (fillLoop env siteData mappings 0).2,
                  hasCaptcha := env.hasCaptcha } ∧
    (∀ (i : Nat) (mp : FieldMapping) (rest : List FieldMapping) (msg : String),
      fillFieldBody env siteData i mp = Except.error msg →
      fillLoop env siteData (mp :: rest) i =
        ((fillLoop env siteData rest (i + 1)).1,
         ("Failed to fill " ++ mp.standardField.jsName ++ ": " ++ msg)
           :: (fillLoop env siteData rest (i + 1)).2)) := by
  refine ⟨rfl, ?_, ?_⟩
  · simp [fillForm, h]
    rfl
  · intro i mp rest msg hb
    simp [fillLoop, hb]

/-- Two text-input mappings for the C2 witness. -/
def fillDemoMappings : List FieldMapping :=
  [{ locator := Locator.byId "f1", standardField := StandardField.siteName,
     confidence := 1, method := "keyword" },
   { locator := Locator.byId "f2", standardField := StandardField.email,
     confidence := 1, method := "keyword" }]

/-- Page state already holding the demo mapping list. -/
def fillDemoState : PageState := { fieldMappings := some fillDemoMappings }

/-- A plain text input control. -/
def demoTextInput : Element := { tagName := "INPUT", etype := "text" }

/-- Fill environment whose first iteration's input write throws. -/
def fillDemoEnv : FillEnv :=
  { findElement := fun _ _ => some demoTextInput,
    findTagsTrigger := fun _ => none,
    findIntroTextarea := fun _ => none,
    fillFile := fun _ => Except.ok (),
    fillCM := fun _ => Except.ok (),
    fillCE := fun _ => Except.ok (),
    fillSelect := fun _ => Except.ok true,
    fillCustom := fun _ => Except.ok true,
    fillInput := fun i => if i = 0 then Except.error "boom" else Except.ok (),
    fillOther := fun _ => Except.ok (),
    hasCaptcha := false }

/-- Site record supplying values for the two demo fields. -/
def demoSiteData : SiteData :=
  { values := fun sf => match sf with
      | StandardField.siteName => some "My Site"
      | StandardField.email => some "a@b.com"
      | _ => none }

/-- Witness for C2: the first field's write throws, the error is
recorded, the second field is still filled, and the summary is
returned;  with no site record the hard error is raised. -/
theorem C2_fill_summary_witness :
    fillDemoState.fieldMappings = some fillDemoMappings ∧
    fillForm fillDemoEnv recDemoEnv demoStore fillDemoState (some demoSiteData) =
      Except.ok { filledCount := 1, totalFields := 2,
                  errors := ["Failed to fill siteName: boom"], hasCaptcha := false } ∧
    fillForm fillDemoEnv recDemoEnv demoStore fillDemoState none =
      Except.error "Site not found or no site selected" :=
  ⟨rfl,
    by
      have h := (C2_fill_summary fillDemoEnv recDemoEnv demoStore fillDemoState
        demoSiteData fillDemoMappings rfl).2.1
      exact h.trans (by rfl),
    (C2_fill_summary fillDemoEnv recDemoEnv demoStore fillDemoState
      demoSiteData fillDemoMappings rfl).1⟩

/-- C6: the protocol decision of `getUrlValueForInput`.  When the
control visibly carries a fixed protocol addon (its current value, or
the preceding sibling's text, reads exactly `https://`/`http://` up to
surrounding whitespace and letter case), the written value is the parsed
URL's `hostname + pathname + search` with the protocol gone (a bare `/`
path elided); otherwise the full absolute URL is written (`https://` is
prefixed when the stored value lacks a protocol).  The last conjunct
ties the decision to the fill loop: for a plain text input resolved at
iteration `i`, the value written is `getUrlValueForInput` of that very
element — recomputed from the element each time, never cached. -/
theorem C6_url_protocol (e : Element) (url : String) (u : URLParts)
    (env : FillEnv) (siteData : SiteData) (i : Nat) (mp : FieldMapping)
    (hne : url ≠ "") (ht : jsTrim url = url) :
    (hasFixedProtoAddon e = true →
      parseURL (if startsWithProto url then url else "https://" ++ url) = some u →
      getUrlValueForInput e url =
        u.hostname ++ (if u.pathname ≠ "/" then u.pathname else "") ++ u.search) ∧
    (hasFixedProtoAddon e = false →
      getUrlValueForInput e url = if startsWithProto url then url else "https://" ++ url) ∧
    (mp.standardField = StandardField.siteUrl →
      env.findElement i mp.locator = some e →
      siteData.values StandardField.siteUrl = some url →
      e.classes = [] → e.contenteditable = false →
      e.tagName = "INPUT" → e.etype = "text" →
      env.fillInput i = Except.ok () →
      fillFieldBody env siteData i mp =
        Except.ok { filled := 1, written := some (getUrlValueForInput e url) }) := by
  refine ⟨?_, ?_, ?_⟩
  · intro h1 h2
    simp [getUrlValueForInput, hne, ht, h1, h2]
  · intro h1
    cases hs : startsWithProto url <;>
      simp [getUrlValueForInput, hne, ht, h1, hs]
  · intro hsf hfind hval hcl hce htag hty hok
    simp [fillFieldBody, hsf, hfind, hval, hcl, hce, htag, hty, hok, hne]

/-- An input whose current value is the fixed prefix `https://`. -/
def urlPrefInput : Element := { tagName := "INPUT", etype := "text", value := "https://" }

/-- A plain URL input with no visible protocol addon. -/
def urlPlainInput : Element := { tagName := "INPUT", etype := "text" }

/-- A recognized siteUrl mapping for the C6 witness. -/
def siteUrlMapping : FieldMapping :=
  { locator := Locator.byId "url", standardField := StandardField.siteUrl,
    confidence := 1, method := "keyword" }

/-- Fill environment resolving the siteUrl field to the prefixed input. -/
def urlFillEnv : FillEnv :=
  { fillDemoEnv with findElement := fun _ _ => some urlPrefInput,
                     fillInput := fun _ => Except.ok () }

/-- Site record holding the full URL for the C6 witness. -/
def urlSiteData : SiteData :=
  { values := fun sf => match sf with
      | StandardField.siteUrl => some "https://example.com/path?q=1"
      | _ => none }

/-- Witness for C6 at concrete controls: the prefixed input gets the
stripped URL, the plain input gets the full absolute URL, and the fill
loop writes the per-element recomputed value. -/
theorem C6_url_protocol_witness :
    hasFixedProtoAddon urlPrefInput = true ∧
    parseURL "https://example.com/path?q=1" =
      some { hostname := "example.com", pathname := "/path", search := "?q=1" } ∧
    getUrlValueForInput urlPrefInput "https://example.com/path?q=1" = "example.com/path?q=1" ∧
    hasFixedProtoAddon urlPlainInput = false ∧
    getUrlValueForInput urlPlainInput "example.com" = "https://example.com" ∧
    fillFieldBody urlFillEnv urlSiteData 0 siteUrlMapping =
      Except.ok { filled := 1, written := some "example.com/path?q=1" } :=
  ⟨by decide, by decide,
    by
      have h := (C6_url_protocol urlPrefInput "https://example.com/path?q=1"
        { hostname := "example.com", pathname := "/path", search := "?q=1" }
        urlFillEnv urlSiteData 0 siteUrlMapping (by decide) (by decide)).1
        (by decide) (by decide)
      exact h.trans (by rfl),
    by decide,
    by
      have h := (C6_url_protocol urlPlainInput "example.com"
        { hostname := "example.com", pathname := "/", search := "" }
        urlFillEnv urlSiteData 0 siteUrlMapping (by decide) (by decide)).2.1
        (by decide)
      exact h.trans (by rfl),
    by
      have h := (C6_url_protocol urlPrefInput "https://example.com/path?q=1"
        { hostname := "example.com", pathname := "/path", search := "?q=1" }
        urlFillEnv urlSiteData 0 siteUrlMapping (by decide) (by decide)).2.2
        rfl rfl rfl rfl rfl rfl rfl rfl
      exact h.trans (by rfl)⟩

end ClaimTheorems

end WebsiteCommitter
